import Mathlib

/-
Verification of the Zandagort server core (src/zandagort.py) against its
natural-language specification.

The embedding models the single-consumer core loop (`serve_forever`), the
client-request dispatcher (`_execute_client_request`), inner commands
(`_execute_inner_command`), the cron enqueue helper (`_cron_fun`), the
startup error handling in `main`, and the query flattener (`_parse_qs_flat`).

Python exceptions are modelled with `Except`: a raised exception is an
`Except.error` value that propagates unless the source catches it.  The
collaborators whose source is not in src/ (game.py: `Game.sim`,
`Game.get_time`, the session authority `game.auth`; utils.py:
`create_request_string`) are modelled from the spec, as noted on each
definition.
-/

namespace Zandagort

/-- Log channels of the server, matching the `_log_access`, `_log_error`
and `_log_sys` wrappers writing to the "access", "error" and "sys"
log files. -/
inductive LogChannel where
  | access
  | error
  | sys
deriving DecidableEq

/-- One log entry: the channel written to and the message line. -/
abbrev LogEntry := LogChannel × String

/-- Model of a raised Python exception: the exception type's name
(`exc_type.__name__`), its message (`str(exc_value)`) and the formatted
traceback lines (`traceback.format_exception`). -/
structure Exc where
  name : String
  msg : String
  trace : List String
deriving DecidableEq

/-- The `InnerCommands` enum of zandagort.py:
`MyEnum("InnerCommands", names=["Sim", "Dump"])`. -/
inductive InnerCommands where
  | Sim
  | Dump
deriving DecidableEq

/-- Python `str()` of an `InnerCommands` member, as used in the log
messages of `_execute_inner_command`. -/
def innerCommandStr : InnerCommands → String
  | .Sim => "InnerCommands.Sim"
  | .Dump => "InnerCommands.Dump"

/-- Arguments of a client request: either a parsed mapping (from
`_parse_qs_flat` or the JSON body), or the distinguished
`ErrorCodes.ArgumentSyntaxError` marker set when parsing raised. -/
inductive Arguments where
  | args (kvs : List (String × String))
  | syntaxError
deriving DecidableEq

/-- Body of the response dict built by `_execute_client_request`:
either `{"response": value}` or `{"error": message}`. -/
inductive RespBody where
  | ok (val : String)
  | err (msg : String)
deriving DecidableEq

/-- The response dict returned by `_execute_client_request`: a body plus
the `"auth_cookie_value"` entry present in every return statement. -/
structure Response where
  body : RespBody
  auth_cookie_value : String
deriving DecidableEq

/-- Modelled from the spec: the world state ("WorldState") owned by the
core loop; game.py is not in src/, and §4.3/§6 specify only that Sim
advances the simulation one tick and that the world has a readable time. -/
structure Game where
  time : Nat
deriving DecidableEq

/-- Modelled from the spec: `game.sim()` advances the simulation by one
tick (game.py not in src/). -/
def Game.sim (g : Game) : Game :=
  ⟨g.time + 1⟩

/-- Modelled from the spec: `game.get_time()` returns the current world
time (game.py not in src/). -/
def Game.get_time (g : Game) : Nat :=
  g.time

/-- The spec-modelled `sim` as a possibly-raising call: it always
succeeds.  The core loop below is parameterized over the behaviour of
`game.sim()` so that a raising implementation can also be considered. -/
def simSpec : Game → Except Exc Game :=
  fun g => .ok g.sim

/-- A user identity held by the session authority.  Modelled from the
spec (§6): identities are opaque and `isGuest` is a boolean predicate on
them. -/
structure User where
  uid : Nat
  guest : Bool
deriving DecidableEq

/-- Modelled from the spec: the session authority `game.auth` (game.py
not in src/), per the §6 interface `getUserByToken`, `createSession`,
`renew`, `isGuest`.  `sessions` maps tokens to users, `renewed` records
the tokens passed to `renew_session` (most recent first), `fresh_tok`
and `fresh_uid` are the token and identity the next `create_new_session`
call mints. -/
structure Auth where
  sessions : List (String × User)
  renewed : List String
  fresh_tok : String
  fresh_uid : Nat
deriving DecidableEq

/-- Modelled from the spec: `auth.get_user_by_auth_cookie(token)` returns
the user of a live session, or None. -/
def Auth.get_user_by_auth_cookie (a : Auth) (tok : String) : Option User :=
  List.lookup tok a.sessions

/-- Modelled from the spec: `auth.create_new_session()` mints a fresh
guest identity and a new token, and returns both (plus the updated
authority state). -/
def Auth.create_new_session (a : Auth) : String × User × Auth :=
  (a.fresh_tok, ⟨a.fresh_uid, true⟩,
    { a with sessions := (a.fresh_tok, (⟨a.fresh_uid, true⟩ : User)) :: a.sessions })

/-- Modelled from the spec: `auth.renew_session(token)` extends the
session's expiry; here it records the renewed token. -/
def Auth.renew_session (a : Auth) (tok : String) : Auth :=
  { a with renewed := tok :: a.renewed }

/-- Modelled from the spec: `auth.is_guest(user)` tests whether the
identity is a guest. -/
def is_guest (u : User) : Bool :=
  u.guest

/-- A controller method as dispatch sees it: its optional `is_public`
attribute (read by `getattr(controller_function, "is_public", False)`)
and its callable behaviour.  The call receives the keyword arguments,
the controller's `current_user` and `auth_cookie_value` attributes set
just before the call, and the game; it returns an outcome (normal value
or raised exception) together with the game state left behind. -/
structure Handler where
  is_public : Option Bool
  run : Arguments → User → String → Game → (Except Exc String) × Game

/-- The `self._controllers` dict: one controller per method, each
modelled as its table of named public-facing methods (Python attribute
lookup `getattr(controller, command)` becomes a table lookup). -/
structure Controllers where
  GET : List (String × Handler)
  POST : List (String × Handler)

/-- The controller selected by `self._controllers[method]`; only reached
after the method has been checked to be "GET" or "POST". -/
def controller_of (cs : Controllers) (method : String) : List (String × Handler) :=
  if method = "GET" then cs.GET else cs.POST

/-- Modelled from the spec: `create_request_string(method, command,
arguments, client_ip)` from utils.py (not in src/) builds the concise
one-line request summary naming the method, the command, the arguments
and the caller address (§4.4 step 8). -/
def create_request_string (method command : String) (arguments : Arguments)
    (client_ip : String) : String :=
  method ++ " " ++ command ++ " " ++
    (match arguments with
     | .syntaxError => "ArgumentSyntaxError"
     | .args kvs => String.intercalate "&" (kvs.map (fun kv => kv.1 ++ "=" ++ kv.2))) ++
    " " ++ client_ip

/-- Result of `_execute_client_request`: the response dict, the updated
collaborator states, the log entries written, and a ghost flag recording
whether the controller function was invoked. -/
structure ExecResult where
  game : Game
  auth : Auth
  resp : Response
  logs : List LogEntry
  invoked : Bool

/-- Lines 290–293 of zandagort.py: look the token up; if no user is
found, create a new session (rebinding both the token and the user). -/
def resolve_identity (a : Auth) (auth_cookie_value : String) : String × User × Auth :=
  match a.get_user_by_auth_cookie auth_cookie_value with
  | some u => (auth_cookie_value, u, a)
  | none => a.create_new_session

/-- Shallow embedding of `ZandagortServer._execute_client_request`
(zandagort.py lines 288–328): resolve identity, always renew, then check
method, command resolution, the ArgumentSyntaxError marker, and
authorization, in the source's order; finally invoke the controller
function, catching any exception it raises. -/
def execute_client_request (cs : Controllers) (g : Game) (a : Auth)
    (method command : String) (arguments : Arguments)
    (auth_cookie_value : String) (client_ip : String) : ExecResult :=
  match resolve_identity a auth_cookie_value with
  | (tok2, current_user, a1) =>
    let a2 := a1.renew_session tok2
    let request_string := create_request_string method command arguments client_ip
    if ¬ (method = "GET" ∨ method = "POST") then
      { game := g, auth := a2, resp := ⟨.err "Unknown method", tok2⟩,
        logs := [(.error, request_string ++ " ! Unknown method")], invoked := false }
    else
      match List.lookup command (controller_of cs method) with
      | none =>
        { game := g, auth := a2, resp := ⟨.err "Unknown command", tok2⟩,
          logs := [(.error, request_string ++ " ! Unknown command")], invoked := false }
      | some f =>
        if arguments = Arguments.syntaxError then
          { game := g, auth := a2, resp := ⟨.err "Syntax error in arguments", tok2⟩,
            logs := [(.error, request_string ++ " ! Syntax error in arguments")],
            invoked := false }
        else if !(f.is_public.getD false) && is_guest current_user then
          { game := g, auth := a2, resp := ⟨.err "Access denied. You have to login.", tok2⟩,
            logs := [(.error, request_string ++ " ! Access denied. You have to login.")],
            invoked := false }
        else
          match f.run arguments current_user tok2 g with
          | (Except.error e, g2) =>
            { game := g2, auth := a2,
              resp := ⟨.err (e.name ++ ": " ++ e.msg), tok2⟩,
              logs := (.error, request_string ++ " ! " ++ e.name ++ ": " ++ e.msg)
                :: e.trace.map (fun line => (LogChannel.error, "    " ++ line.trimRight)),
              invoked := true }
          | (Except.ok v, g2) =>
            { game := g2, auth := a2, resp := ⟨.ok v, tok2⟩,
              logs := [(.access, request_string)], invoked := true }

/-- Shallow embedding of `ZandagortServer._execute_inner_command`
(zandagort.py lines 276–286), parameterized by the behaviour of
`game.sim()` (which may raise; there is no try/except in this method, so
a raised exception propagates to the caller). -/
def execute_inner_command (simFn : Game → Except Exc Game)
    (cmd : InnerCommands) (g : Game) : Except Exc (Game × List LogEntry) :=
  match cmd with
  | .Sim =>
    match simFn g with
    | .error e => .error e
    | .ok g2 =>
      .ok (g2, [(.sys, "[" ++ innerCommandStr .Sim ++ "] game time = "
        ++ toString g2.get_time)])
  | .Dump =>
    .ok (g, [(.sys, "[" ++ innerCommandStr .Dump ++ "] Dumping..."),
             (.sys, "[" ++ innerCommandStr .Dump ++ "] Dumped.")])

/-- A work item on the shared request queue: either the dict
`{"inner_command": command}` put by `_cron_fun`, or the client-request
dict put by `_get_response` (reply queue identified by a number, plus
method, command, arguments, auth cookie value and client ip).  The inner
variant carries no reply channel. -/
inductive WorkItem where
  | inner (cmd : InnerCommands)
  | client (response_queue : Nat) (method command : String) (arguments : Arguments)
      (auth_cookie_value : String) (client_ip : String)

/-- Observable outcome of processing work items: final game and auth
state, log entries written, and the values put on reply queues (queue
id paired with the response), in order. -/
structure StepResult where
  game : Game
  auth : Auth
  logs : List LogEntry
  puts : List (Nat × Response)

/-- One iteration of the `serve_forever` main loop body (zandagort.py
lines 253–263) on a dequeued item.  An exception raised by an inner
command propagates (the surrounding try catches only KeyboardInterrupt
and SystemExit, which are not `Exception`s and are outside this model);
a client request is dispatched and its response put on its reply queue. -/
def serveStep (simFn : Game → Except Exc Game) (cs : Controllers)
    (g : Game) (a : Auth) : WorkItem → Except Exc StepResult
  | .inner cmd =>
    match execute_inner_command simFn cmd g with
    | .error e => .error e
    | .ok (g2, logs) => .ok ⟨g2, a, logs, []⟩
  | .client rq method command arguments tok ip =>
    let r := execute_client_request cs g a method command arguments tok ip
    .ok ⟨r.game, r.auth, r.logs, [(rq, r.resp)]⟩

/-- The `serve_forever` loop run over a list of already-enqueued work
items, processing them strictly in order; the first uncaught exception
terminates the loop, leaving the remaining items unprocessed. -/
def serve_items (simFn : Game → Except Exc Game) (cs : Controllers) :
    Game → Auth → List WorkItem → Except Exc StepResult
  | g, a, [] => .ok ⟨g, a, [], []⟩
  | g, a, item :: rest =>
    match serveStep simFn cs g a item with
    | .error e => .error e
    | .ok r =>
      match serve_items simFn cs r.game r.auth rest with
      | .error e => .error e
      | .ok r2 => .ok ⟨r2.game, r2.auth, r.logs ++ r2.logs, r.puts ++ r2.puts⟩

/-- The state visible to `_cron_fun`: the world, the session authority
and the shared request queue. -/
structure CoreState where
  game : Game
  auth : Auth
  queue : List WorkItem

/-- Shallow embedding of `ZandagortServer._cron_fun` (zandagort.py lines
330–334): put `{"inner_command": command}` on the request queue; nothing
else is touched. -/
def cron_fun (cmd : InnerCommands) (st : CoreState) : CoreState :=
  { st with queue := st.queue ++ [WorkItem.inner cmd] }

/-- Linux errno for "permission denied", the value `errno.EACCES` tested
by `main`. -/
def EACCES : Nat := 13

/-- Linux errno for "address already in use" (`errno.EADDRINUSE`). -/
def EADDRINUSE : Nat := 98

/-- Outcome of constructing `ZandagortServer` in `main`: the bind either
succeeds or raises `socket.error` with some errno. -/
inductive BindOutcome where
  | bound
  | failed (errno : Nat)

/-- Observable outcome of `main` (zandagort.py lines 361–377): the
server is started and served, or startup aborts after printing
"[ERROR] port <port> already used by some other service." /
"Change it in config.py", or startup aborts by re-raising the socket
error. -/
inductive MainResult where
  | served
  | printedPortInUse (port : Nat)
  | reraised (errno : Nat)
deriving DecidableEq

/-- Shallow embedding of `main` (zandagort.py lines 361–377): construct
the server; on `socket.error` with errno `EACCES` print the
port-already-used message and return, on any other errno re-raise;
otherwise start and serve. -/
def main (bind : BindOutcome) (port : Nat) : MainResult :=
  match bind with
  | .bound => .served
  | .failed e => if e = EACCES then .printedPortInUse port else .reraised e

/-- Python `str.split(sep)` for a one-character separator, on the
character list of the string (so that it computes by structural
recursion); splitting the empty string yields `[""]`. -/
def splitOnChar (sep : Char) : List Char → List (List Char)
  | [] => [[]]
  | c :: rest =>
    match splitOnChar sep rest with
    | [] => if c = sep then [[], []] else [[c]]
    | f :: rs => if c = sep then [] :: f :: rs else (c :: f) :: rs

/-- Python `field.split("=", 1)`: `none` when the field has no "=",
otherwise the part before the first "=" and everything after it. -/
def splitFirstEq : List Char → Option (List Char × List Char)
  | [] => none
  | c :: rest =>
    if c = '=' then some ([], rest)
    else (splitFirstEq rest).map (fun p => (c :: p.1, p.2))

/-- Modelled from the Python standard library: `urllib.parse.parse_qsl`
with default options (separator "&"; fields without "=" and fields with
a blank value are skipped), restricted to queries without
percent-escapes or plus signs (no decoding). -/
def parse_qsl (query : String) : List (String × String) :=
  (splitOnChar '&' query.data).filterMap (fun field =>
    match splitFirstEq field with
    | none => none
    | some (name, value) =>
      if value = [] then none else some (String.mk name, String.mk value))

/-- One step of the dict-of-lists accumulation of `parse_qs`: append the
value to an existing key's list, or add the key at the end (Python dict
insertion order). -/
def addPair (acc : List (String × List String)) (k v : String) :
    List (String × List String) :=
  match acc with
  | [] => [(k, [v])]
  | (k0, vs) :: rest =>
    if k0 = k then (k0, vs ++ [v]) :: rest else (k0, vs) :: addPair rest k v

/-- Modelled from the Python standard library: `urllib.parse.parse_qs`,
grouping the pairs of `parse_qsl` into a dict mapping each key to the
list of its values in order of appearance. -/
def parse_qs (query : String) : List (String × List String) :=
  (parse_qsl query).foldl (fun acc kv => addPair acc kv.1 kv.2) []

/-- Python dict assignment `d[k] = v` on an insertion-ordered dict:
overwrite in place if the key exists, otherwise append. -/
def dict_set (d : List (String × String)) (k v : String) :
    List (String × String) :=
  match d with
  | [] => [(k, v)]
  | (k0, v0) :: rest =>
    if k0 = k then (k0, v) :: rest else (k0, v0) :: dict_set rest k v

/-- Shallow embedding of `_parse_qs_flat` (zandagort.py lines 78–84):
iterate the items of `parse_qs(query)` and assign
`flat_query_dict[key] = deep_value[0]` (the first value; a missing first
element would raise, `headD ""` stands for `deep_value[0]` and is shown
below never to hit its default). -/
def parse_qs_flat (query : String) : List (String × String) :=
  (parse_qs query).foldl (fun flat kv => dict_set flat kv.1 (kv.2.headD "")) []

/-- Concrete controller method that returns normally. -/
def handlerOk : Handler :=
  { is_public := some true, run := fun _ _ _ g => (.ok "pong", g) }

/-- Concrete controller method that raises `ValueError("bad")`. -/
def handlerFail : Handler :=
  { is_public := some true,
    run := fun _ _ _ g =>
      (.error ⟨"ValueError", "bad", ["Traceback line 1 ", "  boom"]⟩, g) }

/-- Concrete non-public controller method (no `is_public` attribute). -/
def handlerPriv : Handler :=
  { is_public := none, run := fun _ _ _ g => (.ok "secret", g) }

/-- Concrete controller tables used by the witnesses. -/
def cs0 : Controllers :=
  { GET := [("ping", handlerOk), ("fail", handlerFail), ("secret", handlerPriv)],
    POST := [] }

/-- Concrete session authority state: one non-guest session under
"tokU"; the next minted token is "tokG" for guest uid 7. -/
def a0 : Auth :=
  { sessions := [("tokU", ⟨1, false⟩)], renewed := [], fresh_tok := "tokG",
    fresh_uid := 7 }

/-- Concrete world state. -/
def g0 : Game := ⟨0⟩

/-- Concrete core state for the cron theorems. -/
def st0 : CoreState := ⟨g0, a0, []⟩

/-- Concrete exception raised by the failing `sim` below. -/
def excBoom : Exc := ⟨"RuntimeError", "boom", []⟩

/-- A `game.sim()` behaviour that raises `RuntimeError("boom")`. -/
def simFail : Game → Except Exc Game :=
  fun _ => .error excBoom

/-- The exception raised by `handlerFail`. -/
def excBad : Exc := ⟨"ValueError", "bad", ["Traceback line 1 ", "  boom"]⟩

theorem addPair_fst (k v : String) : ∀ (acc : List (String × List String)),
    (addPair acc k v).map Prod.fst =
      if k ∈ acc.map Prod.fst then acc.map Prod.fst else acc.map Prod.fst ++ [k]
  | [] => by simp [addPair]
  | (k0, vs) :: rest => by
    by_cases h : k0 = k
    · subst h
      simp [addPair]
    · have hne : ¬ k = k0 := fun hh => h hh.symm
      by_cases hm : k ∈ rest.map Prod.fst <;>
        simp [addPair, h, addPair_fst k v rest, hm, hne]

theorem addPair_nodup (k v : String) (acc : List (String × List String))
    (h : (acc.map Prod.fst).Nodup) : ((addPair acc k v).map Prod.fst).Nodup := by
  rw [addPair_fst]
  by_cases hm : k ∈ acc.map Prod.fst
  · simpa [hm] using h
  · simp [hm, List.nodup_append, h]

theorem addPair_vals (k v : String) : ∀ (acc : List (String × List String)),
    (∀ p ∈ acc, p.2 ≠ []) → ∀ p ∈ addPair acc k v, p.2 ≠ []
  | [], _, p, hp => by
    simp [addPair] at hp
    simp [hp]
  | (k0, vs) :: rest, h, p, hp => by
    unfold addPair at hp
    by_cases hk : k0 = k
    · rw [if_pos hk] at hp
      rcases List.mem_cons.mp hp with h1 | h2
      · subst h1; simp
      · exact h p (List.mem_cons_of_mem _ h2)
    · rw [if_neg hk] at hp
      rcases List.mem_cons.mp hp with h1 | h2
      · subst h1
        exact h (k0, vs) (List.mem_cons_self _ _)
      · exact addPair_vals k v rest (fun q hq => h q (List.mem_cons_of_mem _ hq)) p h2

theorem foldl_addPair_inv : ∀ (pairs : List (String × String))
    (acc : List (String × List String)),
    (acc.map Prod.fst).Nodup → (∀ p ∈ acc, p.2 ≠ []) →
    ((pairs.foldl (fun acc2 kv => addPair acc2 kv.1 kv.2) acc).map Prod.fst).Nodup ∧
      ∀ p ∈ pairs.foldl (fun acc2 kv => addPair acc2 kv.1 kv.2) acc, p.2 ≠ []
  | [], acc, h1, h2 => ⟨h1, h2⟩
  | kv :: rest, acc, h1, h2 => by
    simp only [List.foldl_cons]
    exact foldl_addPair_inv rest (addPair acc kv.1 kv.2)
      (addPair_nodup kv.1 kv.2 acc h1) (addPair_vals kv.1 kv.2 acc h2)

theorem parse_qs_keys_nodup (query : String) :
    ((parse_qs query).map Prod.fst).Nodup :=
  (foldl_addPair_inv (parse_qsl query) [] (by simp) (by simp)).1

theorem parse_qs_vals_ne_nil (query : String) :
    ∀ p ∈ parse_qs query, p.2 ≠ [] :=
  (foldl_addPair_inv (parse_qsl query) [] (by simp) (by simp)).2

theorem dict_set_fresh (k v : String) : ∀ (d : List (String × String)),
    k ∉ d.map Prod.fst → dict_set d k v = d ++ [(k, v)]
  | [], _ => rfl
  | (k0, v0) :: rest, h => by
    simp only [List.map_cons, List.mem_cons] at h
    push_neg at h
    unfold dict_set
    rw [if_neg (fun hh => h.1 hh.symm), dict_set_fresh k v rest h.2]
    simp

theorem foldl_dict_set_append : ∀ (l : List (String × List String))
    (flat : List (String × String)),
    (∀ k, k ∈ l.map Prod.fst → k ∉ flat.map Prod.fst) →
    (l.map Prod.fst).Nodup →
    l.foldl (fun fl kv => dict_set fl kv.1 (kv.2.headD "")) flat
      = flat ++ l.map (fun kv => (kv.1, kv.2.headD ""))
  | [], flat, _, _ => by simp
  | (k, vs) :: rest, flat, hdisj, hnodup => by
    simp only [List.map_cons, List.nodup_cons] at hnodup
    simp only [List.foldl_cons]
    rw [dict_set_fresh k (vs.headD "") flat (hdisj k (by simp))]
    rw [foldl_dict_set_append rest (flat ++ [(k, vs.headD "")]) ?disj hnodup.2]
    · simp
    case disj =>
      intro k2 hk2
      simp only [List.map_append, List.mem_append, List.map_cons, List.mem_cons,
        List.map_nil, List.mem_singleton]
      push_neg
      exact ⟨hdisj k2 (by simp [hk2]), fun he => hnodup.1 (he ▸ hk2), by simp⟩

theorem parse_qs_flat_eq_map (query : String) :
    parse_qs_flat query = (parse_qs query).map (fun kv => (kv.1, kv.2.headD "")) := by
  unfold parse_qs_flat
  rw [foldl_dict_set_append (parse_qs query) [] (by simp) (parse_qs_keys_nodup query)]
  simp

theorem serve_items_cons (simFn : Game → Except Exc Game) (cs : Controllers)
    (g : Game) (a : Auth) (item : WorkItem) (rest : List WorkItem)
    (r r2 : StepResult)
    (h1 : serveStep simFn cs g a item = .ok r)
    (h2 : serve_items simFn cs r.game r.auth rest = .ok r2) :
    serve_items simFn cs g a (item :: rest)
      = .ok ⟨r2.game, r2.auth, r.logs ++ r2.logs, r.puts ++ r2.puts⟩ := by
  simp [serve_items, h1, h2]

theorem exec_envelope_shape (cs : Controllers) (g : Game) (a : Auth)
    (m c : String) (args : Arguments) (tok ip : String) :
    ∃ gm body logs inv, execute_client_request cs g a m c args tok ip =
      { game := gm,
        auth := ((resolve_identity a tok).2.2).renew_session (resolve_identity a tok).1,
        resp := ⟨body, (resolve_identity a tok).1⟩, logs := logs, invoked := inv } := by
  unfold execute_client_request
  rcases hr : resolve_identity a tok with ⟨t2, u, a1⟩
  simp only [hr]
  split
  · exact ⟨_, _, _, _, rfl⟩
  · split
    · exact ⟨_, _, _, _, rfl⟩
    · split
      · exact ⟨_, _, _, _, rfl⟩
      · split
        · exact ⟨_, _, _, _, rfl⟩
        · split
          · exact ⟨_, _, _, _, rfl⟩
          · exact ⟨_, _, _, _, rfl⟩

/-- C1: for every client request dequeued by the core loop, processing
never raises: the step succeeds and puts exactly one value — the
response `_execute_client_request` computes for that input — on that
request's private reply queue, and when further items follow, that
single put precedes all puts of the later items. -/
theorem serve_puts_exactly_one_reply (simFn : Game → Except Exc Game)
    (cs : Controllers) (g : Game) (a : Auth) (rq : Nat) (m c : String)
    (args : Arguments) (tok ip : String) (rest : List WorkItem) :
    ∃ r, serveStep simFn cs g a (WorkItem.client rq m c args tok ip) = .ok r ∧
      r.puts = [(rq, (execute_client_request cs g a m c args tok ip).resp)] ∧
      ∀ r2, serve_items simFn cs r.game r.auth rest = .ok r2 →
        ∃ rAll, serve_items simFn cs g a (WorkItem.client rq m c args tok ip :: rest)
            = .ok rAll ∧
          rAll.puts = (rq, (execute_client_request cs g a m c args tok ip).resp)
            :: r2.puts := by
  refine ⟨⟨(execute_client_request cs g a m c args tok ip).game,
    (execute_client_request cs g a m c args tok ip).auth,
    (execute_client_request cs g a m c args tok ip).logs,
    [(rq, (execute_client_request cs g a m c args tok ip).resp)]⟩, rfl, rfl, ?_⟩
  intro r2 h2
  exact ⟨_, serve_items_cons simFn cs g a _ rest _ r2 rfl h2, rfl⟩

/-- Witness for C1 at a concrete request: one queued client request
yields exactly one reply on its queue. -/
theorem serve_puts_exactly_one_reply_w :
    ∃ rAll, serve_items simSpec cs0 g0 a0
        [WorkItem.client 7 "GET" "ping" (.args []) "tokU" "ip"] = .ok rAll ∧
      rAll.puts = [(7, (execute_client_request cs0 g0 a0 "GET" "ping"
        (.args []) "tokU" "ip").resp)] := by
  obtain ⟨r, h1, hp, h3⟩ := serve_puts_exactly_one_reply simSpec cs0 g0 a0 7
    "GET" "ping" (.args []) "tokU" "ip" []
  obtain ⟨rAll, h4, h5⟩ := h3 ⟨r.game, r.auth, [], []⟩ rfl
  exact ⟨rAll, h4, h5.trans rfl⟩

/-- C2 counterexample: with a `game.sim()` that raises, processing the
queue [Sim, Dump] does not continue to the next item: the loop run ends
with the uncaught exception (the Dump item is never processed and no
system-channel log of the failure is produced), refuting the claim that
an inner-command error is caught and the loop continues. -/
theorem inner_command_failure_not_caught_cex :
    serve_items simFail cs0 g0 a0 [WorkItem.inner .Sim, WorkItem.inner .Dump]
      = .error excBoom := rfl

/-- C2 amended: an error raised while executing an inner command (e.g.,
from `game.sim()` during a Sim command) is not caught by the main loop —
`serve_forever` catches only KeyboardInterrupt and SystemExit — so it
propagates out of the loop, terminating `serve_forever`, and any items
still queued behind it are never processed. -/
theorem inner_command_error_propagates (simFn : Game → Except Exc Game)
    (g : Game) (e : Exc) (hs : simFn g = .error e) :
    execute_inner_command simFn .Sim g = .error e ∧
    ∀ (cs : Controllers) (a : Auth) (items : List WorkItem),
      serve_items simFn cs g a (WorkItem.inner .Sim :: items) = .error e := by
  constructor
  · simp [execute_inner_command, hs]
  · intro cs a items
    simp [serve_items, serveStep, execute_inner_command, hs]

/-- Witness for the amended C2 at a concrete failing `sim`. -/
theorem inner_command_error_propagates_w :
    execute_inner_command simFail .Sim g0 = .error excBoom ∧
    serve_items simFail cs0 g0 a0 [WorkItem.inner .Sim] = .error excBoom :=
  ⟨(inner_command_error_propagates simFail g0 excBoom rfl).1,
   (inner_command_error_propagates simFail g0 excBoom rfl).2 cs0 a0 []⟩

/-- C3 counterexample: a request whose arguments carry the
ArgumentSyntaxError marker but whose command does not resolve returns
the unknown-command failure, not the argument-syntax-error failure —
refuting "returns the argument-syntax-error failure regardless of
whether the targeted command name resolves". -/
theorem syntax_error_regardless_cex :
    (execute_client_request cs0 g0 a0 "GET" "nosuch" .syntaxError "tokU" "ip").resp.body
        = .err "Unknown command" ∧
    RespBody.err "Unknown command" ≠ RespBody.err "Syntax error in arguments" :=
  ⟨rfl, by decide⟩

/-- C3 amended: a request whose arguments carry the ArgumentSyntaxError
marker returns the argument-syntax-error failure only when the targeted
command resolves to a registered handler (which is never invoked);
resolution happens before the syntax check, so an unresolvable command
returns the unknown-command failure instead, and in both cases the
error-log line is built from `create_request_string`, which names the
attempted command. -/
theorem syntax_error_after_resolution (cs : Controllers) (g : Game) (a : Auth)
    (m c tok ip tok2 : String) (u : User) (a1 : Auth)
    (hres : resolve_identity a tok = (tok2, u, a1))
    (hm : m = "GET" ∨ m = "POST") :
    (∀ f, List.lookup c (controller_of cs m) = some f →
      execute_client_request cs g a m c .syntaxError tok ip =
        { game := g, auth := a1.renew_session tok2,
          resp := ⟨.err "Syntax error in arguments", tok2⟩,
          logs := [(.error, create_request_string m c .syntaxError ip
            ++ " ! Syntax error in arguments")],
          invoked := false }) ∧
    (List.lookup c (controller_of cs m) = none →
      execute_client_request cs g a m c .syntaxError tok ip =
        { game := g, auth := a1.renew_session tok2,
          resp := ⟨.err "Unknown command", tok2⟩,
          logs := [(.error, create_request_string m c .syntaxError ip
            ++ " ! Unknown command")],
          invoked := false }) := by
  constructor
  · intro f hf
    unfold execute_client_request
    simp only [hres]
    rw [if_neg (not_not_intro hm)]
    simp only [hf]
    simp
  · intro hf
    unfold execute_client_request
    simp only [hres]
    rw [if_neg (not_not_intro hm)]
    simp only [hf]

/-- Witness for the amended C3 at a concrete registered command. -/
theorem syntax_error_after_resolution_w :
    execute_client_request cs0 g0 a0 "GET" "ping" .syntaxError "tokU" "ip" =
      { game := g0, auth := a0.renew_session "tokU",
        resp := ⟨.err "Syntax error in arguments", "tokU"⟩,
        logs := [(.error, create_request_string "GET" "ping" .syntaxError "ip"
          ++ " ! Syntax error in arguments")],
        invoked := false } :=
  (syntax_error_after_resolution cs0 g0 a0 "GET" "ping" "tokU" "ip" "tokU"
    ⟨1, false⟩ a0 rfl (Or.inl rfl)).1 handlerOk rfl

/-- C4: when the resolved, authorized handler raises, the exception is
caught; the error-log channel receives the full detail — the kind-plus-
message line followed by every (right-stripped) traceback line — and
every diagnostic entry goes to the error channel only; the caller's
failure response carries just the error kind and message, with the
traceback appearing nowhere in the response. -/
theorem handler_failure_logged_and_sanitized (cs : Controllers) (g : Game)
    (a : Auth) (m c : String) (args : Arguments) (tok ip tok2 : String)
    (u : User) (a1 : Auth) (f : Handler) (e : Exc) (g2 : Game)
    (hres : resolve_identity a tok = (tok2, u, a1))
    (hm : m = "GET" ∨ m = "POST")
    (hf : List.lookup c (controller_of cs m) = some f)
    (ha : args ≠ Arguments.syntaxError)
    (hpub : f.is_public.getD false = true ∨ is_guest u = false)
    (hrun : f.run args u tok2 g = (Except.error e, g2)) :
    execute_client_request cs g a m c args tok ip =
      { game := g2, auth := a1.renew_session tok2,
        resp := ⟨.err (e.name ++ ": " ++ e.msg), tok2⟩,
        logs := (LogChannel.error, create_request_string m c args ip
            ++ " ! " ++ e.name ++ ": " ++ e.msg)
          :: e.trace.map (fun line => (LogChannel.error, "    " ++ line.trimRight)),
        invoked := true } ∧
    ∀ le ∈ (execute_client_request cs g a m c args tok ip).logs,
      le.1 = LogChannel.error := by
  have hb : (!(f.is_public.getD false) && is_guest u) = false := by
    rcases hpub with h | h <;> simp [h]
  have hmain : execute_client_request cs g a m c args tok ip =
      { game := g2, auth := a1.renew_session tok2,
        resp := ⟨.err (e.name ++ ": " ++ e.msg), tok2⟩,
        logs := (LogChannel.error, create_request_string m c args ip
            ++ " ! " ++ e.name ++ ": " ++ e.msg)
          :: e.trace.map (fun line => (LogChannel.error, "    " ++ line.trimRight)),
        invoked := true } := by
    unfold execute_client_request
    simp only [hres]
    rw [if_neg (not_not_intro hm)]
    simp only [hf]
    rw [if_neg ha]
    simp only [hb, Bool.false_eq_true, if_false]
    simp only [hrun]
  refine ⟨hmain, ?_⟩
  rw [hmain]
  intro le hle
  simp only [List.mem_cons, List.mem_map] at hle
  rcases hle with h | ⟨line, hline, h⟩
  · simp [h]
  · simp [← h]

/-- Witness for C4 at a concrete raising handler. -/
theorem handler_failure_logged_and_sanitized_w :
    execute_client_request cs0 g0 a0 "GET" "fail" (.args []) "tokU" "ip" =
      { game := g0, auth := a0.renew_session "tokU",
        resp := ⟨.err (excBad.name ++ ": " ++ excBad.msg), "tokU"⟩,
        logs := (LogChannel.error, create_request_string "GET" "fail" (.args []) "ip"
            ++ " ! " ++ excBad.name ++ ": " ++ excBad.msg)
          :: excBad.trace.map (fun line => (LogChannel.error, "    " ++ line.trimRight)),
        invoked := true } :=
  (handler_failure_logged_and_sanitized cs0 g0 a0 "GET" "fail" (.args [])
    "tokU" "ip" "tokU" ⟨1, false⟩ a0 handlerFail excBad g0 rfl (Or.inl rfl)
    rfl (by decide) (Or.inl rfl) rfl).1

/-- C5: a handler whose `is_public` attribute is absent or false is
denied to a guest identity — the request gets the access-denied failure
and the handler is never invoked — while the same request under a
non-guest identity proceeds to handler invocation. -/
theorem nonpublic_guest_access_denied (cs : Controllers) (g : Game) (a : Auth)
    (m c : String) (args : Arguments) (tok ip tok2 : String) (u : User)
    (a1 : Auth) (f : Handler)
    (hres : resolve_identity a tok = (tok2, u, a1))
    (hm : m = "GET" ∨ m = "POST")
    (hf : List.lookup c (controller_of cs m) = some f)
    (ha : args ≠ Arguments.syntaxError)
    (hpub : f.is_public.getD false = false) :
    (is_guest u = true →
      execute_client_request cs g a m c args tok ip =
        { game := g, auth := a1.renew_session tok2,
          resp := ⟨.err "Access denied. You have to login.", tok2⟩,
          logs := [(.error, create_request_string m c args ip
            ++ " ! Access denied. You have to login.")],
          invoked := false }) ∧
    (is_guest u = false →
      (execute_client_request cs g a m c args tok ip).invoked = true) := by
  constructor
  · intro hg
    unfold execute_client_request
    simp only [hres]
    rw [if_neg (not_not_intro hm)]
    simp only [hf]
    rw [if_neg ha]
    simp only [hpub, hg, Bool.not_false, Bool.and_self, if_true]
  · intro hg
    unfold execute_client_request
    simp only [hres]
    rw [if_neg (not_not_intro hm)]
    simp only [hf]
    rw [if_neg ha]
    simp only [hpub, hg, Bool.and_false, Bool.false_eq_true, if_false]
    rcases hr : f.run args u tok2 g with ⟨out, g2⟩
    cases out <;> simp

/-- Witness for C5: the non-public "secret" command is denied to the
guest minted for an unknown token, and invoked for the logged-in user. -/
theorem nonpublic_guest_access_denied_w :
    execute_client_request cs0 g0 a0 "GET" "secret" (.args []) "" "ip" =
      { game := g0,
        auth := ({ a0 with
          sessions := ("tokG", (⟨7, true⟩ : User)) :: a0.sessions }).renew_session "tokG",
        resp := ⟨.err "Access denied. You have to login.", "tokG"⟩,
        logs := [(.error, create_request_string "GET" "secret" (.args []) "ip"
          ++ " ! Access denied. You have to login.")],
        invoked := false } ∧
    (execute_client_request cs0 g0 a0 "GET" "secret" (.args []) "tokU" "ip").invoked
      = true :=
  ⟨(nonpublic_guest_access_denied cs0 g0 a0 "GET" "secret" (.args []) "" "ip"
      "tokG" ⟨7, true⟩ ({ a0 with
        sessions := ("tokG", (⟨7, true⟩ : User)) :: a0.sessions }) handlerPriv
      rfl (Or.inl rfl) rfl (by decide) rfl).1 rfl,
   (nonpublic_guest_access_denied cs0 g0 a0 "GET" "secret" (.args []) "tokU" "ip"
      "tokU" ⟨1, false⟩ a0 handlerPriv rfl (Or.inl rfl) rfl (by decide) rfl).2 rfl⟩

/-- C6: identity resolution happens first and its token is threaded to
the end: the token returned in the envelope of every response of
`_execute_client_request` — success or any failure kind — is the
original token when the session authority knows it, and the freshly
minted token otherwise (in which case a new guest session was stored);
the session for that token is always renewed. -/
theorem every_envelope_carries_token (cs : Controllers) (g : Game) (a : Auth)
    (m c : String) (args : Arguments) (tok ip : String) :
    (execute_client_request cs g a m c args tok ip).resp.auth_cookie_value
        = (resolve_identity a tok).1 ∧
    (execute_client_request cs g a m c args tok ip).auth.renewed
        = (resolve_identity a tok).1 :: a.renewed ∧
    (resolve_identity a tok).1
        = (if (a.get_user_by_auth_cookie tok).isSome then tok else a.fresh_tok) ∧
    (execute_client_request cs g a m c args tok ip).auth.sessions
        = (if (a.get_user_by_auth_cookie tok).isSome then a.sessions
           else (a.fresh_tok, (⟨a.fresh_uid, true⟩ : User)) :: a.sessions) := by
  obtain ⟨gm, body, logs, inv, he⟩ := exec_envelope_shape cs g a m c args tok ip
  rw [he]
  cases hu : a.get_user_by_auth_cookie tok with
  | some u => simp [resolve_identity, hu, Auth.renew_session]
  | none => simp [resolve_identity, hu, Auth.renew_session, Auth.create_new_session]

/-- C7: failure to bind at startup is always fatal — `main` never reaches
serving — but the distinct port-already-used report is printed exactly
when the socket error's errno is EACCES (13, permission denied), not
when it is EADDRINUSE (98, the actual "address already in use" errno),
which is re-raised like every other cause. -/
theorem bind_failure_eacces_check (port : Nat) :
    main (.failed EADDRINUSE) port = .reraised EADDRINUSE ∧
    main (.failed EACCES) port = .printedPortInUse port ∧
    ∀ e, main (.failed e) port =
      (if e = EACCES then .printedPortInUse port else .reraised e) :=
  ⟨rfl, rfl, fun _ => rfl⟩

/-- C8: a Dump inner command leaves the world state and the session
authority unchanged and produces no reply; its only effect is the two
system-channel log lines recording the intent.  A Sim inner command
advances the simulation exactly one tick and logs the new game time. -/
theorem dump_noop_sim_advances (cs : Controllers) (g : Game) (a : Auth) :
    serveStep simSpec cs g a (WorkItem.inner .Dump) =
      .ok ⟨g, a, [(.sys, "[InnerCommands.Dump] Dumping..."),
                  (.sys, "[InnerCommands.Dump] Dumped.")], []⟩ ∧
    serveStep simSpec cs g a (WorkItem.inner .Sim) =
      .ok ⟨⟨g.time + 1⟩, a,
           [(.sys, "[InnerCommands.Sim] game time = " ++ toString (g.time + 1))],
           []⟩ :=
  ⟨rfl, rfl⟩

/-- C9: `_cron_fun` only appends the inner-command item (carrying just
the command name; the inner variant has no reply channel) to the request
queue, leaving the world state and the session authority untouched, and
whenever the core loop processes such an item it puts no reply on any
queue. -/
theorem cron_enqueues_inner_only (cmd : InnerCommands) (st : CoreState) :
    (cron_fun cmd st).game = st.game ∧
    (cron_fun cmd st).auth = st.auth ∧
    (cron_fun cmd st).queue = st.queue ++ [WorkItem.inner cmd] ∧
    ∀ (simFn : Game → Except Exc Game) (cs : Controllers) (r : StepResult),
      serveStep simFn cs st.game st.auth (WorkItem.inner cmd) = .ok r →
        r.puts = [] := by
  refine ⟨rfl, rfl, rfl, ?_⟩
  intro simFn cs r h
  cases cmd with
  | Sim =>
    cases hs : simFn st.game with
    | error e => simp [serveStep, execute_inner_command, hs] at h
    | ok g2 =>
      simp [serveStep, execute_inner_command, hs] at h
      rw [← h]
  | Dump =>
    simp [serveStep, execute_inner_command] at h
    rw [← h]

/-- Witness for C9 at a concrete command and state. -/
theorem cron_enqueues_inner_only_w :
    (cron_fun InnerCommands.Dump st0).queue
        = st0.queue ++ [WorkItem.inner InnerCommands.Dump] ∧
    (⟨g0, a0, [(.sys, "[InnerCommands.Dump] Dumping..."),
               (.sys, "[InnerCommands.Dump] Dumped.")], []⟩ : StepResult).puts
        = [] :=
  ⟨(cron_enqueues_inner_only InnerCommands.Dump st0).2.2.1,
   (cron_enqueues_inner_only InnerCommands.Dump st0).2.2.2 simSpec cs0 _ rfl⟩

/-- C10: `_parse_qs_flat` maps each key of the `parse_qs` dict to the
first value of that key's (always nonempty) value list — so string
values, never lists — and a duplicated key such as in "q=a&q=b" keeps
only its first value. -/
theorem parse_qs_flat_first_values (query : String) :
    parse_qs_flat query = (parse_qs query).map (fun kv => (kv.1, kv.2.headD "")) ∧
    (∀ kv ∈ parse_qs query, kv.2 ≠ []) ∧
    parse_qs_flat "q=a&q=b" = [("q", "a")] :=
  ⟨parse_qs_flat_eq_map query, parse_qs_vals_ne_nil query, by decide⟩

/-- Witness for C10 at the duplicated-key query. -/
theorem parse_qs_flat_first_values_w :
    parse_qs_flat "q=a&q=b"
        = (parse_qs "q=a&q=b").map (fun kv => (kv.1, kv.2.headD "")) ∧
    (("q", ["a", "b"]) : String × List String).2 ≠ [] :=
  ⟨(parse_qs_flat_first_values "q=a&q=b").1,
   (parse_qs_flat_first_values "q=a&q=b").2.1 ("q", ["a", "b"]) (by decide)⟩

end Zandagort
